import Mathlib

/-!
Shallow embedding of the e-learning backend (services/enums layer) and proofs
about its authorization, course-lifecycle, enrollment and privilege operations.

Modelling conventions:
* SQLAlchemy tables become lists of records inside a single `DB` state.
* `query(...).filter(...).first()` becomes `List.find?` with the same
  predicate; `.all()`/`count()` become `List.filter`/its length.
* Mutating a fetched ORM row followed by `commit()` becomes replacing the
  first row matching the fetch predicate (`updateFirstWhere`).
* `datetime` values are abstract instants modelled as `Int`;
  `datetime.utcnow()` is the `now` field of the `DB` state.
* Python `raise ValueError(...)` becomes returning `Except.error e`
  together with the state as mutated so far (services raise before any
  commit unless noted, so the state component shows exactly that).
* The `role` column of `users` and the `status` column of `courses` are
  commented out in database/models.py while every service reads and
  writes them. Modelled from the spec: role is an enumerated value in
  the set admin, instructor, student; status is the enumerated
  CourseStatus; comparisons of these fields against role strings in the
  middleware and against enum members in the services are both embedded
  as equality on the corresponding inductive type.
-/

namespace ELearning

/-- User roles, from utils/enums.py UserRole. -/
inductive UserRole where
  | admin
  | instructor
  | student
deriving DecidableEq

/-- Course lifecycle statuses, from utils/enums.py CourseStatus. -/
inductive CourseStatus where
  | draft
  | published
  | archived
  | suspended
  | in_review
  | approved
  | rejected
deriving DecidableEq

/-- Privilege names, from utils/enums.py PrivilegeName (33 values). -/
inductive PrivilegeName where
  | create_course
  | edit_course
  | delete_course
  | publish_course
  | archive_course
  | suspend_course
  | create_lesson
  | edit_lesson
  | delete_lesson
  | manage_lessons
  | create_assignment
  | edit_assignment
  | delete_assignment
  | manage_assignments
  | grade_assignments
  | view_enrollments
  | manage_students
  | enroll_students
  | unenroll_students
  | upload_content
  | delete_content
  | manage_content
  | view_analytics
  | view_reports
  | export_data
  | send_announcements
  | message_students
  | manage_communications
  | set_discounts
  | view_revenue
  | manage_pricing
  | manage_course_settings
  | access_advanced_features
deriving DecidableEq

/-- The persisted string value of a privilege name (the Enum .value). -/
def PrivilegeName.value : PrivilegeName → String
  | create_course => "create_course"
  | edit_course => "edit_course"
  | delete_course => "delete_course"
  | publish_course => "publish_course"
  | archive_course => "archive_course"
  | suspend_course => "suspend_course"
  | create_lesson => "create_lesson"
  | edit_lesson => "edit_lesson"
  | delete_lesson => "delete_lesson"
  | manage_lessons => "manage_lessons"
  | create_assignment => "create_assignment"
  | edit_assignment => "edit_assignment"
  | delete_assignment => "delete_assignment"
  | manage_assignments => "manage_assignments"
  | grade_assignments => "grade_assignments"
  | view_enrollments => "view_enrollments"
  | manage_students => "manage_students"
  | enroll_students => "enroll_students"
  | unenroll_students => "unenroll_students"
  | upload_content => "upload_content"
  | delete_content => "delete_content"
  | manage_content => "manage_content"
  | view_analytics => "view_analytics"
  | view_reports => "view_reports"
  | export_data => "export_data"
  | send_announcements => "send_announcements"
  | message_students => "message_students"
  | manage_communications => "manage_communications"
  | set_discounts => "set_discounts"
  | view_revenue => "view_revenue"
  | manage_pricing => "manage_pricing"
  | manage_course_settings => "manage_course_settings"
  | access_advanced_features => "access_advanced_features"

/-- Every member of the PrivilegeName enumeration, in declaration order. -/
def PrivilegeName.all : List PrivilegeName :=
  [.create_course, .edit_course, .delete_course, .publish_course,
   .archive_course, .suspend_course, .create_lesson, .edit_lesson,
   .delete_lesson, .manage_lessons, .create_assignment, .edit_assignment,
   .delete_assignment, .manage_assignments, .grade_assignments,
   .view_enrollments, .manage_students, .enroll_students,
   .unenroll_students, .upload_content, .delete_content, .manage_content,
   .view_analytics, .view_reports, .export_data, .send_announcements,
   .message_students, .manage_communications, .set_discounts,
   .view_revenue, .manage_pricing, .manage_course_settings,
   .access_advanced_features]

/-- Looking a raw string up in the enumeration, mirroring the Python
value lookup PrivilegeName(privilege_name), which raises ValueError
exactly when no member has that value (here: returns none). -/
def PrivilegeName.ofString? (s : String) : Option PrivilegeName :=
  PrivilegeName.all.find? fun p => decide (p.value = s)

/-- Default instructor grant set, from
PrivilegeName.get_default_instructor_privileges (10 entries). -/
def PrivilegeName.get_default_instructor_privileges : List String :=
  [PrivilegeName.create_course.value,
   PrivilegeName.edit_course.value,
   PrivilegeName.delete_course.value,
   PrivilegeName.manage_lessons.value,
   PrivilegeName.view_enrollments.value,
   PrivilegeName.create_assignment.value,
   PrivilegeName.grade_assignments.value,
   PrivilegeName.upload_content.value,
   PrivilegeName.send_announcements.value,
   PrivilegeName.set_discounts.value]

/-- The enrollable statuses {published, approved}, from
CourseStatus.get_enrollable_statuses. -/
def CourseStatus.get_enrollable_statuses : List CourseStatus :=
  [CourseStatus.published, CourseStatus.approved]

/-- A row of the users table (database/models.py User). Fields not read
by the verified operations (password, email, timestamps) are omitted;
role is modelled from the spec as noted in the file header. -/
structure User where
  id : Nat
  username : String
  role : UserRole
  is_active : Bool
deriving DecidableEq

/-- A row of the privileges table (database/models.py Privilege). -/
structure Privilege where
  id : Nat
  instructor_id : Nat
  privilege_name : String
  privilege_description : Option String
  is_active : Bool
  assigned_by : Nat
  assigned_at : Int
deriving DecidableEq

/-- A row of the courses table (database/models.py Course); banner_image
is omitted (never read by the verified operations), status is modelled
from the spec as noted in the file header. -/
structure Course where
  id : String
  title : String
  description : String
  instructor_id : Nat
  fee : Int
  discounted_fee : Option Int
  discount_start_date : Option Int
  discount_end_date : Option Int
  total_enrolled : Int
  status : CourseStatus
  is_active : Bool
  updated_at : Int
deriving DecidableEq

/-- A row of the enrollments table (database/models.py Enrollment). -/
structure Enrollment where
  id : Nat
  student_id : Nat
  course_id : String
  enrolled_at : Int
  is_active : Bool
deriving DecidableEq

/-- The database session state: one list per table, fresh primary keys
for the autoincrement columns, and the current instant. -/
structure DB where
  users : List User
  courses : List Course
  enrollments : List Enrollment
  privileges : List Privilege
  next_enrollment_id : Nat
  next_privilege_id : Nat
  now : Int
deriving DecidableEq

deriving instance DecidableEq for Except

/-- Replace the first list element satisfying p by its image under f;
this is the embedding of fetch-one-row, mutate it, commit. -/
def updateFirstWhere {α : Type} (p : α → Bool) (f : α → α) : List α → List α
  | [] => []
  | x :: rest => if p x then f x :: rest else x :: updateFirstWhere p f rest

/-! Shared row queries (the repeated query(...).filter(...).first() shapes). -/

/-- Predicate of the student lookup in EnrollmentService.enroll_student:
User.id == student_id, User.role == UserRole.STUDENT, User.is_active == True. -/
def isValidStudentRow (student_id : Nat) (u : User) : Bool :=
  decide (u.id = student_id ∧ u.role = UserRole.student ∧ u.is_active = true)

/-- First matching student row, or none. -/
def findValidStudent (db : DB) (student_id : Nat) : Option User :=
  db.users.find? (isValidStudentRow student_id)

/-- Predicate of the instructor lookup in
PrivilegeService.assign_privilege_to_instructor. -/
def isValidInstructorRow (instructor_id : Nat) (u : User) : Bool :=
  decide (u.id = instructor_id ∧ u.role = UserRole.instructor ∧ u.is_active = true)

/-- First matching instructor row, or none. -/
def findValidInstructor (db : DB) (instructor_id : Nat) : Option User :=
  db.users.find? (isValidInstructorRow instructor_id)

/-- Predicate of the admin lookup in the privilege service. -/
def isValidAdminRow (admin_id : Nat) (u : User) : Bool :=
  decide (u.id = admin_id ∧ u.role = UserRole.admin ∧ u.is_active = true)

/-- First matching admin row, or none. -/
def findValidAdmin (db : DB) (admin_id : Nat) : Option User :=
  db.users.find? (isValidAdminRow admin_id)

/-- Predicate of the course lookup Course.id == course_id,
Course.is_active == True (CourseService.get_course_by_id and the course
check in enroll_student). -/
def isActiveCourseRow (course_id : String) (c : Course) : Bool :=
  decide (c.id = course_id ∧ c.is_active = true)

/-- First matching active course, or none. -/
def findActiveCourse (db : DB) (course_id : String) : Option Course :=
  db.courses.find? (isActiveCourseRow course_id)

/-- Predicate of the active-enrollment lookup for a (student, course)
pair, shared by enroll_student, unenroll_student and is_student_enrolled. -/
def isActiveEnrollmentRow (student_id : Nat) (course_id : String) (e : Enrollment) : Bool :=
  decide (e.student_id = student_id ∧ e.course_id = course_id ∧ e.is_active = true)

/-- First active enrollment of the pair, or none. -/
def findActiveEnrollment (db : DB) (student_id : Nat) (course_id : String) : Option Enrollment :=
  db.enrollments.find? (isActiveEnrollmentRow student_id course_id)

/-- Predicate of the active-enrollments-of-a-course query used by
EnrollmentService.get_enrollment_count. -/
def isActiveCourseEnrollmentRow (course_id : String) (e : Enrollment) : Bool :=
  decide (e.course_id = course_id ∧ e.is_active = true)

/-- EnrollmentService.get_enrollment_count: number of active enrollments
for a course. -/
def get_enrollment_count (db : DB) (course_id : String) : Nat :=
  (db.enrollments.filter (isActiveCourseEnrollmentRow course_id)).length

/-- Predicate of the active-privilege lookup for an (instructor, name)
pair, shared by assignment, revocation and check_instructor_privilege. -/
def isActivePrivilegeRow (instructor_id : Nat) (privilege_name : String) (p : Privilege) : Bool :=
  decide (p.instructor_id = instructor_id ∧ p.privilege_name = privilege_name ∧ p.is_active = true)

/-- First active privilege of the pair, or none. -/
def findActivePrivilege (db : DB) (instructor_id : Nat) (privilege_name : String) : Option Privilege :=
  db.privileges.find? (isActivePrivilegeRow instructor_id privilege_name)

/-! Enrollment service (services/enrollment_service.py). -/

/-- The distinct ValueError raises of the enrollment service. -/
inductive EnrollError where
  | studentNotFound
  | courseNotFound
  | invalidStatus (s : CourseStatus)
  | alreadyEnrolled
  | enrollmentNotFound
deriving DecidableEq

/-- EnrollmentService._update_course_enrollment_count: recount the active
enrollments of the course and write the count into the first courses row
with that id (the lookup there has no is_active filter), stamping
updated_at. A missing course leaves the state unchanged. -/
def update_course_enrollment_count (db : DB) (course_id : String) : DB :=
  let enrollment_count : Int := get_enrollment_count db course_id
  { db with courses := (updateFirstWhere (fun c => decide (c.id = course_id))
      (fun c => { c with total_enrolled := enrollment_count, updated_at := db.now })
      db.courses) }

/-- EnrollmentService.enroll_student: validate student, course, course
status and duplicate enrollment in that order, then insert the new active
enrollment row and recompute the course counter. -/
def enroll_student (db : DB) (student_id : Nat) (course_id : String) :
    Except EnrollError Enrollment × DB :=
  match findValidStudent db student_id with
  | none => (Except.error EnrollError.studentNotFound, db)
  | some _ =>
    match findActiveCourse db course_id with
    | none => (Except.error EnrollError.courseNotFound, db)
    | some course =>
      if course.status ∉ CourseStatus.get_enrollable_statuses then
        (Except.error (EnrollError.invalidStatus course.status), db)
      else
        match findActiveEnrollment db student_id course_id with
        | some _ => (Except.error EnrollError.alreadyEnrolled, db)
        | none =>
          let e : Enrollment :=
            { id := db.next_enrollment_id
              student_id := student_id
              course_id := course_id
              enrolled_at := db.now
              is_active := true }
          let db1 : DB :=
            { db with enrollments := db.enrollments ++ [e]
                      next_enrollment_id := db.next_enrollment_id + 1 }
          (Except.ok e, update_course_enrollment_count db1 course_id)

/-- EnrollmentService.unenroll_student: flip the first active enrollment
of the pair to inactive and recompute the course counter. -/
def unenroll_student (db : DB) (student_id : Nat) (course_id : String) :
    Except EnrollError Bool × DB :=
  match findActiveEnrollment db student_id course_id with
  | none => (Except.error EnrollError.enrollmentNotFound, db)
  | some _ =>
    let db1 : DB :=
      { db with enrollments := (updateFirstWhere
          (isActiveEnrollmentRow student_id course_id)
          (fun e => { e with is_active := false }) db.enrollments) }
    (Except.ok true, update_course_enrollment_count db1 course_id)

/-- EnrollmentService.bulk_enroll_students: enroll each id in turn; a
ValueError from enroll_student is logged and skipped, every later id is
still attempted, and the successes are collected in order. -/
def bulk_enroll_students (db : DB) (student_ids : List Nat) (course_id : String) :
    List Enrollment × DB :=
  match student_ids with
  | [] => ([], db)
  | sid :: rest =>
    match enroll_student db sid course_id with
    | (Except.ok e, db1) =>
      let r := bulk_enroll_students db1 rest course_id
      (e :: r.1, r.2)
    | (Except.error _, db1) =>
      bulk_enroll_students db1 rest course_id

/-! Course service (services/course_service.py). -/

/-- The distinct ValueError raises of the course service: the course
lookup failure, and the two validation messages of set_course_discount. -/
inductive CourseError where
  | courseNotFound
  | validationError (msg : String)
deriving DecidableEq

/-- CourseService.get_course_by_id: first row with the id that is active. -/
def get_course_by_id (db : DB) (course_id : String) : Option Course :=
  findActiveCourse db course_id

/-- Round a rational to the nearest integer, ties to even, mirroring the
Python built-in round (float arithmetic idealized as exact rationals). -/
def roundHalfEven (q : Rat) : Int :=
  let n : Int := q.floor
  let frac : Rat := q - n
  if frac < 1 / 2 then n
  else if 1 / 2 < frac then n + 1
  else if n % 2 = 0 then n else n + 1

/-- Round to two decimal places, ties to even: round(x, 2). -/
def roundTo2 (q : Rat) : Rat :=
  (roundHalfEven (q * 100) : Rat) / 100

/-- CourseService._calculate_discount_percentage:
round((original - discounted) / original * 100, 2), and 0 when the
original fee is 0. -/
def calculate_discount_percentage (original_fee discounted_fee : Int) : Rat :=
  if original_fee = 0 then 0
  else roundTo2 ((((original_fee : Rat) - (discounted_fee : Rat)) / (original_fee : Rat)) * 100)

/-- The dictionary returned by CourseService.get_current_fee. -/
structure FeeInfo where
  original_fee : Int
  current_fee : Int
  discounted_fee : Option Int
  is_discounted : Bool
  discount_start_date : Option Int
  discount_end_date : Option Int
  discount_percentage : Rat
deriving DecidableEq

/-- The fee dictionary when the discount branch is not taken:
current_fee is the base fee, is_discounted false, percentage 0. -/
def feeInfoNoDiscount (course : Course) : FeeInfo :=
  { original_fee := course.fee
    current_fee := course.fee
    discounted_fee := course.discounted_fee
    is_discounted := false
    discount_start_date := course.discount_start_date
    discount_end_date := course.discount_end_date
    discount_percentage := 0 }

/-- CourseService.get_current_fee: the discount branch is taken when
discounted_fee is not None, both discount dates are set (datetimes are
always truthy, so the Python truthiness tests are isSome tests), and
discount_start_date <= now <= discount_end_date, both bounds inclusive. -/
def get_current_fee (db : DB) (course_id : String) :
    Except CourseError FeeInfo × DB :=
  match get_course_by_id db course_id with
  | none => (Except.error CourseError.courseNotFound, db)
  | some course =>
    match course.discounted_fee, course.discount_start_date, course.discount_end_date with
    | some dfee, some ds, some de =>
      if ds ≤ db.now ∧ db.now ≤ de then
        (Except.ok
          { original_fee := course.fee
            current_fee := dfee
            discounted_fee := course.discounted_fee
            is_discounted := true
            discount_start_date := course.discount_start_date
            discount_end_date := course.discount_end_date
            discount_percentage := calculate_discount_percentage course.fee dfee }, db)
      else (Except.ok (feeInfoNoDiscount course), db)
    | _, _, _ => (Except.ok (feeInfoNoDiscount course), db)

/-- CourseService.set_course_discount: reject a discounted fee at or
above the base fee, then a start date at or after the end date, then
write the three discount fields and stamp updated_at on the fetched row. -/
def set_course_discount (db : DB) (course_id : String) (discounted_fee : Int)
    (start_date end_date : Int) : Except CourseError Course × DB :=
  match get_course_by_id db course_id with
  | none => (Except.error CourseError.courseNotFound, db)
  | some course =>
    if discounted_fee ≥ course.fee then
      (Except.error (CourseError.validationError "Discounted fee must be less than original fee"), db)
    else if start_date ≥ end_date then
      (Except.error (CourseError.validationError "Start date must be before end date"), db)
    else
      let f : Course → Course := fun c =>
        { c with discounted_fee := some discounted_fee
                 discount_start_date := some start_date
                 discount_end_date := some end_date
                 updated_at := db.now }
      (Except.ok (f course),
       { db with courses := updateFirstWhere (isActiveCourseRow course_id) f db.courses })

/-- Common shape of the six status-transition methods of CourseService
(publish_course, archive_course, suspend_course, submit_for_review,
approve_course, reject_course): fetch the active course by id, overwrite
its status with the target unconditionally, stamp updated_at, commit. -/
def set_course_status (db : DB) (course_id : String) (s : CourseStatus) :
    Except CourseError Course × DB :=
  match get_course_by_id db course_id with
  | none => (Except.error CourseError.courseNotFound, db)
  | some course =>
    let f : Course → Course := fun c => { c with status := s, updated_at := db.now }
    (Except.ok (f course),
     { db with courses := updateFirstWhere (isActiveCourseRow course_id) f db.courses })

/-- CourseService.publish_course. -/
def publish_course (db : DB) (course_id : String) : Except CourseError Course × DB :=
  set_course_status db course_id CourseStatus.published

/-- CourseService.archive_course. -/
def archive_course (db : DB) (course_id : String) : Except CourseError Course × DB :=
  set_course_status db course_id CourseStatus.archived

/-- CourseService.suspend_course. -/
def suspend_course (db : DB) (course_id : String) : Except CourseError Course × DB :=
  set_course_status db course_id CourseStatus.suspended

/-- CourseService.submit_for_review. -/
def submit_for_review (db : DB) (course_id : String) : Except CourseError Course × DB :=
  set_course_status db course_id CourseStatus.in_review

/-- CourseService.approve_course. -/
def approve_course (db : DB) (course_id : String) : Except CourseError Course × DB :=
  set_course_status db course_id CourseStatus.approved

/-- CourseService.reject_course. -/
def reject_course (db : DB) (course_id : String) : Except CourseError Course × DB :=
  set_course_status db course_id CourseStatus.rejected

/-! Privilege service (services/privilege_service.py). -/

/-- PrivilegeName.get_privilege_description: the fixed description table,
with a default for unknown names. -/
def PrivilegeName.get_privilege_description (privilege_name : String) : String :=
  match PrivilegeName.ofString? privilege_name with
  | some PrivilegeName.create_course => "Can create new courses"
  | some PrivilegeName.edit_course => "Can edit course details and settings"
  | some PrivilegeName.delete_course => "Can delete courses"
  | some PrivilegeName.publish_course => "Can publish courses for student enrollment"
  | some PrivilegeName.archive_course => "Can archive completed or outdated courses"
  | some PrivilegeName.suspend_course => "Can temporarily suspend course access"
  | some PrivilegeName.create_lesson => "Can create new lessons within courses"
  | some PrivilegeName.edit_lesson => "Can edit lesson content and settings"
  | some PrivilegeName.delete_lesson => "Can delete lessons"
  | some PrivilegeName.manage_lessons => "Can manage all aspects of lessons"
  | some PrivilegeName.create_assignment => "Can create new assignments"
  | some PrivilegeName.edit_assignment => "Can edit assignment details"
  | some PrivilegeName.delete_assignment => "Can delete assignments"
  | some PrivilegeName.manage_assignments => "Can manage all aspects of assignments"
  | some PrivilegeName.grade_assignments => "Can grade student assignments"
  | some PrivilegeName.view_enrollments => "Can view student enrollments"
  | some PrivilegeName.manage_students => "Can manage student access and permissions"
  | some PrivilegeName.enroll_students => "Can manually enroll students in courses"
  | some PrivilegeName.unenroll_students => "Can remove students from courses"
  | some PrivilegeName.upload_content => "Can upload course materials and resources"
  | some PrivilegeName.delete_content => "Can delete uploaded content"
  | some PrivilegeName.manage_content => "Can manage all course content"
  | some PrivilegeName.view_analytics => "Can view course analytics and insights"
  | some PrivilegeName.view_reports => "Can view detailed course reports"
  | some PrivilegeName.export_data => "Can export course data and reports"
  | some PrivilegeName.send_announcements => "Can send announcements to enrolled students"
  | some PrivilegeName.message_students => "Can send direct messages to students"
  | some PrivilegeName.manage_communications => "Can manage all communication features"
  | some PrivilegeName.set_discounts => "Can set course discounts and pricing"
  | some PrivilegeName.view_revenue => "Can view course revenue and financial data"
  | some PrivilegeName.manage_pricing => "Can manage course pricing and payment settings"
  | some PrivilegeName.manage_course_settings => "Can access advanced course settings"
  | some PrivilegeName.access_advanced_features => "Can access advanced platform features"
  | none => "No description available"

/-- The distinct ValueError raises of the privilege service. -/
inductive PrivError where
  | invalidName (name : String)
  | instructorNotFound
  | adminNotFound
  | alreadyAssigned (name : String)
  | privilegeNotFound (name : String)
deriving DecidableEq

/-- The message text of each privilege-service ValueError (str(e) in the
bulk handlers); the quote characters around the interpolated name are
left out, which the substring tests below never look at. -/
def PrivError.message : PrivError → String
  | PrivError.invalidName n => "Invalid privilege name: " ++ n
  | PrivError.instructorNotFound => "Instructor not found or invalid"
  | PrivError.adminNotFound => "Admin not found or invalid"
  | PrivError.alreadyAssigned n => "Privilege " ++ n ++ " already assigned to this instructor"
  | PrivError.privilegeNotFound n => "Privilege " ++ n ++ " not found for this instructor"

/-- Whether pat occurs as a contiguous run inside l (the Python
substring-in-string test). -/
def charsInfix (pat : List Char) : List Char → Bool
  | [] => decide (pat = [])
  | c :: rest => pat.isPrefixOf (c :: rest) || charsInfix pat rest

/-- The Python test: sub in s. -/
def strContainsSub (s sub : String) : Bool :=
  charsInfix sub.toList s.toList

/-- PrivilegeService.assign_privilege_to_instructor: validate the name
against the enumeration, the instructor, the admin, then reject a
duplicate active (instructor, name) privilege; otherwise insert a new
active row, defaulting a missing or empty description to the enum
description (the Python test is falsiness, so the empty string also
defaults). -/
def assign_privilege_to_instructor (db : DB) (instructor_id : Nat)
    (privilege_name : String) (privilege_description : Option String)
    (admin_id : Nat) : Except PrivError Privilege × DB :=
  if (PrivilegeName.ofString? privilege_name).isNone then
    (Except.error (PrivError.invalidName privilege_name), db)
  else
    match findValidInstructor db instructor_id with
    | none => (Except.error PrivError.instructorNotFound, db)
    | some _ =>
      match findValidAdmin db admin_id with
      | none => (Except.error PrivError.adminNotFound, db)
      | some _ =>
        match findActivePrivilege db instructor_id privilege_name with
        | some _ => (Except.error (PrivError.alreadyAssigned privilege_name), db)
        | none =>
          let desc : Option String :=
            match privilege_description with
            | some d =>
              if d = "" then some (PrivilegeName.get_privilege_description privilege_name)
              else some d
            | none => some (PrivilegeName.get_privilege_description privilege_name)
          let p : Privilege :=
            { id := db.next_privilege_id
              instructor_id := instructor_id
              privilege_name := privilege_name
              privilege_description := desc
              is_active := true
              assigned_by := admin_id
              assigned_at := db.now }
          (Except.ok p,
           { db with privileges := db.privileges ++ [p]
                     next_privilege_id := db.next_privilege_id + 1 })

/-- PrivilegeService.revoke_privilege_from_instructor: validate the name
and the admin, find the active (instructor, name) privilege and flip it
to inactive (the row is kept). -/
def revoke_privilege_from_instructor (db : DB) (instructor_id : Nat)
    (privilege_name : String) (admin_id : Nat) : Except PrivError Bool × DB :=
  if (PrivilegeName.ofString? privilege_name).isNone then
    (Except.error (PrivError.invalidName privilege_name), db)
  else
    match findValidAdmin db admin_id with
    | none => (Except.error PrivError.adminNotFound, db)
    | some _ =>
      match findActivePrivilege db instructor_id privilege_name with
      | none => (Except.error (PrivError.privilegeNotFound privilege_name), db)
      | some _ =>
        (Except.ok true,
         { db with privileges := (updateFirstWhere
             (isActivePrivilegeRow instructor_id privilege_name)
             (fun p => { p with is_active := false }) db.privileges) })

/-- PrivilegeService.check_instructor_privilege: false for a name outside
the enumeration, otherwise whether an active (instructor, name) privilege
row exists. -/
def check_instructor_privilege (db : DB) (instructor_id : Nat)
    (privilege_name : String) : Bool :=
  if (PrivilegeName.ofString? privilege_name).isNone then false
  else (findActivePrivilege db instructor_id privilege_name).isSome

/-- middleware/privilege_checker.py check_privilege: admins always pass,
instructors are checked through check_instructor_privilege, everyone
else (students) is denied. -/
def check_privilege (privilege_name : String) (current_user : User) (db : DB) : Bool :=
  if current_user.role = UserRole.admin then true
  else if current_user.role = UserRole.instructor then
    check_instructor_privilege db current_user.id privilege_name
  else false

/-- PrivilegeService.bulk_assign_privileges: assign each name in turn;
an error whose message contains already assigned is skipped and the
batch continues, any other error is re-raised, aborting the batch while
keeping the rows already committed. -/
def bulk_assign_privileges (db : DB) (instructor_id : Nat)
    (privilege_names : List String) (admin_id : Nat) :
    Except PrivError (List Privilege) × DB :=
  match privilege_names with
  | [] => (Except.ok [], db)
  | n :: rest =>
    match assign_privilege_to_instructor db instructor_id n none admin_id with
    | (Except.ok p, db1) =>
      match bulk_assign_privileges db1 instructor_id rest admin_id with
      | (Except.ok ps, db2) => (Except.ok (p :: ps), db2)
      | (Except.error e, db2) => (Except.error e, db2)
    | (Except.error e, db1) =>
      if strContainsSub e.message "already assigned" then
        bulk_assign_privileges db1 instructor_id rest admin_id
      else (Except.error e, db1)

/-! Derived state observations and harness definitions used by the
verified properties. -/

/-- Number of active enrollment rows of a course (the quantity
get_enrollment_count returns and _update_course_enrollment_count stores). -/
def activeCount (db : DB) (course_id : String) : Nat :=
  get_enrollment_count db course_id

/-- The stored denormalized counter: total_enrolled of the first courses
row with the id (the row _update_course_enrollment_count writes). -/
def storedCount (db : DB) (course_id : String) : Option Int :=
  (db.courses.find? fun c => decide (c.id = course_id)).map Course.total_enrolled

/-- One enrollment-engine call against a fixed course. -/
inductive EnrollOp where
  | enroll (student_id : Nat)
  | unenroll (student_id : Nat)
deriving DecidableEq

/-- Run a sequence of enrollment-engine calls against one course,
requiring every call to succeed (none signals that some call raised). -/
def runEnrollOps (db : DB) (course_id : String) : List EnrollOp → Option DB
  | [] => some db
  | EnrollOp.enroll sid :: rest =>
    match enroll_student db sid course_id with
    | (Except.ok _, db1) => runEnrollOps db1 course_id rest
    | (Except.error _, _) => none
  | EnrollOp.unenroll sid :: rest =>
    match unenroll_student db sid course_id with
    | (Except.ok _, db1) => runEnrollOps db1 course_id rest
    | (Except.error _, _) => none

/-- Number of enroll calls in a sequence. -/
def countEnrolls : List EnrollOp → Nat
  | [] => 0
  | EnrollOp.enroll _ :: rest => countEnrolls rest + 1
  | EnrollOp.unenroll _ :: rest => countEnrolls rest

/-- Number of unenroll calls in a sequence. -/
def countUnenrolls : List EnrollOp → Nat
  | [] => 0
  | EnrollOp.enroll _ :: rest => countUnenrolls rest
  | EnrollOp.unenroll _ :: rest => countUnenrolls rest + 1

/-- At most one active enrollment row for the (student, course) pair. -/
def uniqueActiveEnrollment (db : DB) (student_id : Nat) (course_id : String) : Prop :=
  (db.enrollments.filter (isActiveEnrollmentRow student_id course_id)).length ≤ 1

/-- At most one active privilege row for the (instructor, name) pair. -/
def uniqueActivePrivilege (db : DB) (instructor_id : Nat) (privilege_name : String) : Prop :=
  (db.privileges.filter (isActivePrivilegeRow instructor_id privilege_name)).length ≤ 1

/-- States whose privilege store is reachable through the privilege
service: an empty privileges table, any change that leaves the
privileges table alone (every other service, and every privilege-service
error path, which returns the state unchanged), a successful assignment,
or a successful revocation. The bulk operations are sequences of these. -/
inductive PrivReachable : DB → Prop where
  | empty (db : DB) : db.privileges = [] → PrivReachable db
  | frame (db db2 : DB) : PrivReachable db → db2.privileges = db.privileges →
      PrivReachable db2
  | assign (db : DB) (iid : Nat) (n : String) (d : Option String) (aid : Nat)
      (p : Privilege) (db2 : DB) : PrivReachable db →
      assign_privilege_to_instructor db iid n d aid = (Except.ok p, db2) →
      PrivReachable db2
  | revoke (db : DB) (iid : Nat) (n : String) (aid : Nat) (b : Bool) (db2 : DB) :
      PrivReachable db →
      revoke_privilege_from_instructor db iid n aid = (Except.ok b, db2) →
      PrivReachable db2

/-! Concrete fixtures used by the witness theorems. -/

/-- Fixture: an active admin user. -/
def uAdmin : User :=
  { id := 1
    username := "alice"
    role := UserRole.admin
    is_active := true }

/-- Fixture: an active instructor user. -/
def uInstr : User :=
  { id := 2
    username := "ivan"
    role := UserRole.instructor
    is_active := true }

/-- Fixture: an active student user. -/
def uStudent : User :=
  { id := 3
    username := "sam"
    role := UserRole.student
    is_active := true }

/-- Fixture: a second active student user. -/
def uStudent2 : User :=
  { id := 4
    username := "sue"
    role := UserRole.student
    is_active := true }

/-- Fixture: a published course without a discount. -/
def cPub : Course :=
  { id := "c1"
    title := "algebra"
    description := "intro"
    instructor_id := 2
    fee := 1000
    discounted_fee := none
    discount_start_date := none
    discount_end_date := none
    total_enrolled := 0
    status := CourseStatus.published
    is_active := true
    updated_at := 0 }

/-- Fixture: a draft course. -/
def cDraft : Course :=
  { id := "c2"
    title := "geometry"
    description := "draft course"
    instructor_id := 2
    fee := 500
    discounted_fee := none
    discount_start_date := none
    discount_end_date := none
    total_enrolled := 0
    status := CourseStatus.draft
    is_active := true
    updated_at := 0 }

/-- Fixture: a published course with a discount window around now = 50. -/
def cDisc : Course :=
  { id := "c3"
    title := "calculus"
    description := "discounted"
    instructor_id := 2
    fee := 1000
    discounted_fee := some 800
    discount_start_date := some 10
    discount_end_date := some 90
    total_enrolled := 0
    status := CourseStatus.published
    is_active := true
    updated_at := 0 }

/-- Fixture: base state with the four users and three courses. -/
def dbW : DB :=
  { users := [uAdmin, uInstr, uStudent, uStudent2]
    courses := [cPub, cDraft, cDisc]
    enrollments := []
    privileges := []
    next_enrollment_id := 1
    next_privilege_id := 1
    now := 50 }

/-- Fixture: an active create_course privilege row for the instructor. -/
def pCC : Privilege :=
  { id := 1
    instructor_id := 2
    privilege_name := "create_course"
    privilege_description := some "Can create new courses"
    is_active := true
    assigned_by := 1
    assigned_at := 40 }

/-- Fixture: base state extended with the create_course privilege row. -/
def dbWP : DB :=
  { dbW with privileges := [pCC], next_privilege_id := 2 }

/-- Fixture: state reached from dbW by enrolling student 3 in course c1. -/
def dbWE : DB := (enroll_student dbW 3 "c1").2

/-- Fixture: the enrollment row created by that call. -/
def eW : Enrollment :=
  { id := 1
    student_id := 3
    course_id := "c1"
    enrolled_at := 50
    is_active := true }

/-- Fixture: state reached from dbWE by unenrolling student 3 again. -/
def dbWU : DB := (unenroll_student dbWE 3 "c1").2

/-- Fixture: an interleaved run of two enrolls and one unenroll on c1. -/
def opsW : List EnrollOp :=
  [EnrollOp.enroll 3, EnrollOp.enroll 4, EnrollOp.unenroll 3]

/-- Fixture: the state after running opsW from dbW. -/
def dbWOps : DB := (runEnrollOps dbW "c1" opsW).getD dbW

/-- Fixture: the course returned by setting a valid discount on c1. -/
def cW7 : Course :=
  { cPub with discounted_fee := some 800
              discount_start_date := some 10
              discount_end_date := some 90
              updated_at := 50 }

/-- Fixture: the state after setting that discount on dbW. -/
def dbW7 : DB := (set_course_discount dbW "c1" 800 10 90).2

/-- Fixture: the state after revoking create_course from the instructor. -/
def dbWPR : DB := (revoke_privilege_from_instructor dbWP 2 "create_course" 1).2

/-- Fixture: the published course row as stored after one enrollment. -/
def cPubE : Course :=
  { cPub with total_enrolled := 1, updated_at := 50 }

/-! General lemmas about updateFirstWhere, the embedding of
fetch-one-row-then-commit. -/

/-- When no element satisfies p, updateFirstWhere changes nothing. -/
theorem updateFirstWhere_eq_of_forall_neg {α : Type} (p : α → Bool) (f : α → α)
    (l : List α) (h : ∀ x ∈ l, ¬ p x = true) : updateFirstWhere p f l = l := by
  induction l with
  | nil => rfl
  | cons x rest ih =>
    have hx : ¬ p x = true := h x (List.mem_cons_self x rest)
    simp only [updateFirstWhere, if_neg hx]
    rw [ih fun y hy => h y (List.mem_cons_of_mem x hy)]

/-- Every element of the updated list is an original element or the image
of an original element under f. -/
theorem mem_updateFirstWhere {α : Type} (p : α → Bool) (f : α → α)
    (l : List α) (y : α) (hy : y ∈ updateFirstWhere p f l) :
    y ∈ l ∨ ∃ x ∈ l, y = f x := by
  induction l with
  | nil => cases hy
  | cons x rest ih =>
    by_cases hx : p x = true
    · simp only [updateFirstWhere, if_pos hx] at hy
      rcases List.mem_cons.mp hy with h | h
      · exact Or.inr ⟨x, List.mem_cons_self x rest, h⟩
      · exact Or.inl (List.mem_cons_of_mem x h)
    · simp only [updateFirstWhere, if_neg hx] at hy
      rcases List.mem_cons.mp hy with h | h
      · exact Or.inl (h ▸ List.mem_cons_self x rest)
      · rcases ih h with h2 | ⟨z, hz, hzf⟩
        · exact Or.inl (List.mem_cons_of_mem x h2)
        · exact Or.inr ⟨z, List.mem_cons_of_mem x hz, hzf⟩

/-- Updating the found row keeps it findable when f preserves the search
predicate, and the find result becomes its image. -/
theorem find?_updateFirstWhere_pres {α : Type} (p : α → Bool) (f : α → α)
    (l : List α) (a : α) (h : l.find? p = some a) (hf : p (f a) = true) :
    (updateFirstWhere p f l).find? p = some (f a) := by
  induction l with
  | nil => cases h
  | cons x rest ih =>
    by_cases hx : p x = true
    · rw [List.find?_cons_of_pos _ hx] at h
      injection h with h
      subst h
      simp only [updateFirstWhere, if_pos hx]
      exact List.find?_cons_of_pos _ hf
    · rw [List.find?_cons_of_neg _ hx] at h
      simp only [updateFirstWhere, if_neg hx]
      rw [List.find?_cons_of_neg _ hx]
      exact ih h

/-- When at most one element satisfies p and f destroys p, no element of
the updated list satisfies p any more. -/
theorem find?_updateFirstWhere_of_unique {α : Type} (p : α → Bool) (f : α → α)
    (l : List α) (huniq : (l.filter p).length ≤ 1) (hf : ∀ x, ¬ p (f x) = true) :
    (updateFirstWhere p f l).find? p = none := by
  induction l with
  | nil => rfl
  | cons x rest ih =>
    by_cases hx : p x = true
    · simp only [updateFirstWhere, if_pos hx]
      rw [List.find?_cons_of_neg _ (hf x)]
      rw [List.filter_cons_of_pos hx] at huniq
      simp only [List.length_cons] at huniq
      have hnil : rest.filter p = [] := List.length_eq_zero.mp (by omega)
      apply List.find?_eq_none.mpr
      intro y hy
      exact (List.filter_eq_nil_iff.mp hnil) y hy
    · simp only [updateFirstWhere, if_neg hx]
      rw [List.find?_cons_of_neg _ hx]
      rw [List.filter_cons_of_neg hx] at huniq
      exact ih huniq

/-- Updating through a predicate p cannot increase the number of rows
satisfying an unrelated predicate q, provided f never creates
q-satisfaction. -/
theorem filter_length_updateFirstWhere_le {α : Type} (p q : α → Bool) (f : α → α)
    (l : List α) (hf : ∀ x, q (f x) = true → q x = true) :
    ((updateFirstWhere p f l).filter q).length ≤ (l.filter q).length := by
  induction l with
  | nil => exact Nat.le_refl _
  | cons x rest ih =>
    by_cases hx : p x = true
    · simp only [updateFirstWhere, if_pos hx]
      by_cases hq : q (f x) = true
      · rw [List.filter_cons_of_pos hq, List.filter_cons_of_pos (hf x hq)]
        simp
      · rw [List.filter_cons_of_neg hq]
        by_cases hq2 : q x = true
        · rw [List.filter_cons_of_pos hq2]
          simp only [List.length_cons]
          exact Nat.le_succ_of_le (Nat.le_refl _)
        · rw [List.filter_cons_of_neg hq2]
    · simp only [updateFirstWhere, if_neg hx]
      by_cases hq2 : q x = true
      · rw [List.filter_cons_of_pos hq2, List.filter_cons_of_pos hq2]
        simpa using ih
      · rw [List.filter_cons_of_neg hq2, List.filter_cons_of_neg hq2]
        exact ih

/-- Deactivating the first p-row removes exactly one q-row, when p implies
q and f destroys q. -/
theorem filter_length_updateFirstWhere_succ {α : Type} (p q : α → Bool) (f : α → α)
    (l : List α) (a : α) (h : l.find? p = some a)
    (hpq : ∀ x, p x = true → q x = true) (hq : ∀ x, ¬ q (f x) = true) :
    ((updateFirstWhere p f l).filter q).length + 1 = (l.filter q).length := by
  induction l with
  | nil => cases h
  | cons x rest ih =>
    by_cases hx : p x = true
    · simp only [updateFirstWhere, if_pos hx]
      rw [List.filter_cons_of_neg (hq x), List.filter_cons_of_pos (hpq x hx)]
      simp
    · rw [List.find?_cons_of_neg _ hx] at h
      simp only [updateFirstWhere, if_neg hx]
      have hrec := ih h
      by_cases hq2 : q x = true
      · simp only [List.filter_cons, if_pos hq2, List.length_cons]
        omega
      · simp only [List.filter_cons, if_neg hq2]
        exact hrec

/-! Claim C1: authorization decision function. -/

/-- C1: check_privilege is correct for all three roles: an admin is always
permitted; an instructor is permitted iff the action is in the enumerated
PrivilegeName set and an active privilege row with exactly that name
exists for the instructor; a student is never permitted. -/
theorem check_privilege_role_cases (a : String) (u : User) (db : DB) :
    (u.role = UserRole.admin → check_privilege a u db = true) ∧
    (u.role = UserRole.instructor →
      (check_privilege a u db = true ↔
        ((PrivilegeName.ofString? a).isSome = true ∧
          ∃ p ∈ db.privileges, p.instructor_id = u.id ∧ p.privilege_name = a ∧
            p.is_active = true))) ∧
    (u.role = UserRole.student → check_privilege a u db = false) := by
  refine ⟨fun h => ?_, fun h => ?_, fun h => ?_⟩
  · simp [check_privilege, h]
  · have hne : ¬ u.role = UserRole.admin := by rw [h]; intro hc; cases hc
    simp only [check_privilege, if_neg hne, if_pos h, check_instructor_privilege]
    cases hcase : PrivilegeName.ofString? a with
    | none => simp [hcase]
    | some pn =>
      simp only [hcase, Option.isNone_some, Bool.false_eq_true, if_false,
        Option.isSome_some, true_and, findActivePrivilege, List.find?_isSome,
        isActivePrivilegeRow, decide_eq_true_eq]
  · have hne : ¬ u.role = UserRole.admin := by rw [h]; intro hc; cases hc
    have hne2 : ¬ u.role = UserRole.instructor := by rw [h]; intro hc; cases hc
    simp [check_privilege, if_neg hne, if_neg hne2]

/-- Witness for C1 at concrete inputs: the fixture admin is permitted,
the fixture instructor holds create_course and is permitted, the fixture
student is denied. -/
theorem check_privilege_role_cases_witness :
    check_privilege "create_course" uAdmin dbWP = true ∧
    check_privilege "create_course" uInstr dbWP = true ∧
    check_privilege "create_course" uStudent dbWP = false := by
  refine ⟨(check_privilege_role_cases "create_course" uAdmin dbWP).1 rfl, ?_,
    (check_privilege_role_cases "create_course" uStudent dbWP).2.2 rfl⟩
  exact ((check_privilege_role_cases "create_course" uInstr dbWP).2.1 rfl).mpr
    ⟨by decide, pCC, by decide, by decide, by decide, by decide⟩

/-! Claim C4: unconditional status transitions. -/

/-- Shared shape of the six transition methods: on an existing active
course the call succeeds, returns the course with the target status and
a fresh updated_at, and the stored row is that course. -/
theorem set_course_status_ok (db : DB) (cid : String) (c : Course) (s : CourseStatus)
    (hc : get_course_by_id db cid = some c) :
    (set_course_status db cid s).1 =
      Except.ok { c with status := s, updated_at := db.now } ∧
    get_course_by_id (set_course_status db cid s).2 cid =
      some { c with status := s, updated_at := db.now } := by
  have hpred : isActiveCourseRow cid c = true :=
    List.find?_some (p := isActiveCourseRow cid) hc
  have hpred2 : isActiveCourseRow cid { c with status := s, updated_at := db.now } = true := by
    simpa [isActiveCourseRow] using hpred
  constructor
  · unfold set_course_status
    rw [show get_course_by_id db cid = some c from hc]
  · unfold set_course_status
    rw [show get_course_by_id db cid = some c from hc]
    simp only [get_course_by_id, findActiveCourse]
    exact find?_updateFirstWhere_pres _ _ _ c hc hpred2

/-- C4: each of publish, archive, suspend, submit_for_review, approve and
reject, called on an existing active course in any prior status, succeeds
and overwrites the stored status with its target status; no prior status
is ever rejected. -/
theorem course_transitions_unconditional (db : DB) (cid : String) (c : Course)
    (hc : get_course_by_id db cid = some c) :
    ((publish_course db cid).1 =
        Except.ok { c with status := CourseStatus.published, updated_at := db.now } ∧
      get_course_by_id (publish_course db cid).2 cid =
        some { c with status := CourseStatus.published, updated_at := db.now }) ∧
    ((archive_course db cid).1 =
        Except.ok { c with status := CourseStatus.archived, updated_at := db.now } ∧
      get_course_by_id (archive_course db cid).2 cid =
        some { c with status := CourseStatus.archived, updated_at := db.now }) ∧
    ((suspend_course db cid).1 =
        Except.ok { c with status := CourseStatus.suspended, updated_at := db.now } ∧
      get_course_by_id (suspend_course db cid).2 cid =
        some { c with status := CourseStatus.suspended, updated_at := db.now }) ∧
    ((submit_for_review db cid).1 =
        Except.ok { c with status := CourseStatus.in_review, updated_at := db.now } ∧
      get_course_by_id (submit_for_review db cid).2 cid =
        some { c with status := CourseStatus.in_review, updated_at := db.now }) ∧
    ((approve_course db cid).1 =
        Except.ok { c with status := CourseStatus.approved, updated_at := db.now } ∧
      get_course_by_id (approve_course db cid).2 cid =
        some { c with status := CourseStatus.approved, updated_at := db.now }) ∧
    ((reject_course db cid).1 =
        Except.ok { c with status := CourseStatus.rejected, updated_at := db.now } ∧
      get_course_by_id (reject_course db cid).2 cid =
        some { c with status := CourseStatus.rejected, updated_at := db.now }) :=
  ⟨set_course_status_ok db cid c CourseStatus.published hc,
   set_course_status_ok db cid c CourseStatus.archived hc,
   set_course_status_ok db cid c CourseStatus.suspended hc,
   set_course_status_ok db cid c CourseStatus.in_review hc,
   set_course_status_ok db cid c CourseStatus.approved hc,
   set_course_status_ok db cid c CourseStatus.rejected hc⟩

/-- Witness for C4 at a concrete input: the fixture draft course can be
published directly and rejected directly. -/
theorem course_transitions_unconditional_witness :
    (publish_course dbW "c2").1 =
      Except.ok { cDraft with status := CourseStatus.published, updated_at := dbW.now } ∧
    (reject_course dbW "c2").1 =
      Except.ok { cDraft with status := CourseStatus.rejected, updated_at := dbW.now } :=
  ⟨(course_transitions_unconditional dbW "c2" cDraft (by decide)).1.1,
   (course_transitions_unconditional dbW "c2" cDraft (by decide)).2.2.2.2.2.1⟩

/-! Claim C7: discount validation. -/

/-- C7: on an existing active course, set_course_discount fails with a
ValidationError exactly when the discounted fee is at least the base fee
or the start date is not before the end date, and a successful call
stores exactly the given discount fields, which then satisfy the strict
inequalities discounted fee below base fee and start before end. -/
theorem set_course_discount_validation (db : DB) (cid : String)
    (dfee sd ed : Int) (c : Course) (hc : get_course_by_id db cid = some c) :
    ((∃ msg, (set_course_discount db cid dfee sd ed).1 =
        Except.error (CourseError.validationError msg)) ↔
      (dfee ≥ c.fee ∨ sd ≥ ed)) ∧
    (∀ c2 db2, set_course_discount db cid dfee sd ed = (Except.ok c2, db2) →
      c2.discounted_fee = some dfee ∧ c2.discount_start_date = some sd ∧
      c2.discount_end_date = some ed ∧ c2.fee = c.fee ∧ dfee < c.fee ∧ sd < ed) := by
  unfold set_course_discount
  rw [show get_course_by_id db cid = some c from hc]
  by_cases h1 : dfee ≥ c.fee
  · simp only [if_pos h1]
    constructor
    · constructor
      · intro _
        exact Or.inl h1
      · intro _
        exact ⟨"Discounted fee must be less than original fee", rfl⟩
    · intro c2 db2 hok
      cases hok
  · simp only [if_neg h1]
    by_cases h2 : sd ≥ ed
    · simp only [if_pos h2]
      constructor
      · constructor
        · intro _
          exact Or.inr h2
        · intro _
          exact ⟨"Start date must be before end date", rfl⟩
      · intro c2 db2 hok
        cases hok
    · simp only [if_neg h2]
      constructor
      · constructor
        · rintro ⟨msg, hmsg⟩
          cases hmsg
        · rintro (hcon | hcon)
          · exact absurd hcon h1
          · exact absurd hcon h2
      · intro c2 db2 hok
        have hc2 : c2 = { c with discounted_fee := some dfee
                                 discount_start_date := some sd
                                 discount_end_date := some ed
                                 updated_at := db.now } := by
          have := congrArg Prod.fst hok
          simpa using this.symm
        subst hc2
        exact ⟨rfl, rfl, rfl, rfl, by omega, by omega⟩

/-- Witness for C7 at concrete inputs: a too-high discounted fee on the
fixture course is rejected with a ValidationError, and a valid discount
is stored with the strict inequalities satisfied. -/
theorem set_course_discount_validation_witness :
    (∃ msg, (set_course_discount dbW "c1" 1200 10 90).1 =
      Except.error (CourseError.validationError msg)) ∧
    (cW7.discounted_fee = some 800 ∧ cW7.discount_start_date = some 10 ∧
      cW7.discount_end_date = some 90 ∧ cW7.fee = cPub.fee ∧
      (800 : Int) < cPub.fee ∧ (10 : Int) < 90) :=
  ⟨(set_course_discount_validation dbW "c1" 1200 10 90 cPub (by decide)).1.mpr
      (Or.inl (by decide)),
   (set_course_discount_validation dbW "c1" 800 10 90 cPub (by decide)).2
      cW7 dbW7 (by decide)⟩

/-! Claim C3: current fee and discount window. -/

/-- C3: for an existing active course, get_current_fee returns the
discounted fee with is_discounted true whenever a discount is fully set
and now lies inside the window, both bounds included, and the base fee
with is_discounted false whenever any discount field is unset or now
lies strictly outside the window. -/
theorem get_current_fee_window (db : DB) (cid : String) (c : Course)
    (hc : get_course_by_id db cid = some c) :
    (∀ dfee sd ed, c.discounted_fee = some dfee → c.discount_start_date = some sd →
      c.discount_end_date = some ed → sd ≤ db.now → db.now ≤ ed →
      ∃ info, (get_current_fee db cid).1 = Except.ok info ∧
        info.current_fee = dfee ∧ info.is_discounted = true) ∧
    ((c.discounted_fee = none ∨ c.discount_start_date = none ∨
      c.discount_end_date = none ∨
      (∀ sd, c.discount_start_date = some sd → db.now < sd) ∨
      (∀ ed, c.discount_end_date = some ed → ed < db.now)) →
      ∃ info, (get_current_fee db cid).1 = Except.ok info ∧
        info.current_fee = c.fee ∧ info.is_discounted = false) := by
  constructor
  · intro dfee sd ed h1 h2 h3 h4 h5
    simp only [get_current_fee, hc, h1, h2, h3, if_pos (And.intro h4 h5)]
    exact ⟨_, rfl, rfl, rfl⟩
  · intro hout
    cases h1 : c.discounted_fee with
    | none =>
      simp only [get_current_fee, hc, h1]
      exact ⟨_, rfl, rfl, rfl⟩
    | some dfee =>
      cases h2 : c.discount_start_date with
      | none =>
        simp only [get_current_fee, hc, h1, h2]
        exact ⟨_, rfl, rfl, rfl⟩
      | some sd =>
        cases h3 : c.discount_end_date with
        | none =>
          simp only [get_current_fee, hc, h1, h2, h3]
          exact ⟨_, rfl, rfl, rfl⟩
        | some ed =>
          have hnot : ¬ (sd ≤ db.now ∧ db.now ≤ ed) := by
            rcases hout with h | h | h | h | h
            · rw [h1] at h
              cases h
            · rw [h2] at h
              cases h
            · rw [h3] at h
              cases h
            · have := h sd h2
              omega
            · have := h ed h3
              omega
          simp only [get_current_fee, hc, h1, h2, h3, if_neg hnot]
          exact ⟨_, rfl, rfl, rfl⟩

/-- Witness for C3 at concrete inputs: the fixture discounted course at
now = 50 inside its window returns 800 discounted, and the fixture course
without a discount returns its base fee undiscounted. -/
theorem get_current_fee_window_witness :
    (∃ info, (get_current_fee dbW "c3").1 = Except.ok info ∧
      info.current_fee = 800 ∧ info.is_discounted = true) ∧
    (∃ info, (get_current_fee dbW "c1").1 = Except.ok info ∧
      info.current_fee = cPub.fee ∧ info.is_discounted = false) :=
  ⟨(get_current_fee_window dbW "c3" cDisc (by decide)).1 800 10 90 rfl rfl rfl
      (by decide) (by decide),
   (get_current_fee_window dbW "c1" cPub (by decide)).2 (Or.inl rfl)⟩

/-! Claim C2: enroll_student check order and success effect. -/

/-- C2: enroll_student checks, in order: the student row (missing, wrong
role or inactive all make the lookup empty), then the active course row,
then membership of the course status in the enrollable set {published,
approved}, then an existing active enrollment of the pair; each failure
raises the corresponding error and leaves the state unchanged, and when
every check passes exactly one new active enrollment row is appended. -/
theorem enroll_student_check_order (db : DB) (sid : Nat) (cid : String) :
    (findValidStudent db sid = none →
      enroll_student db sid cid = (Except.error EnrollError.studentNotFound, db)) ∧
    (findValidStudent db sid ≠ none → findActiveCourse db cid = none →
      enroll_student db sid cid = (Except.error EnrollError.courseNotFound, db)) ∧
    (∀ c, findValidStudent db sid ≠ none → findActiveCourse db cid = some c →
      c.status ∉ CourseStatus.get_enrollable_statuses →
      enroll_student db sid cid = (Except.error (EnrollError.invalidStatus c.status), db)) ∧
    (∀ c, findValidStudent db sid ≠ none → findActiveCourse db cid = some c →
      c.status ∈ CourseStatus.get_enrollable_statuses →
      findActiveEnrollment db sid cid ≠ none →
      enroll_student db sid cid = (Except.error EnrollError.alreadyEnrolled, db)) ∧
    (∀ c, findValidStudent db sid ≠ none → findActiveCourse db cid = some c →
      c.status ∈ CourseStatus.get_enrollable_statuses →
      findActiveEnrollment db sid cid = none →
      ∃ e db2, enroll_student db sid cid = (Except.ok e, db2) ∧
        e.student_id = sid ∧ e.course_id = cid ∧ e.is_active = true ∧
        db2.enrollments = db.enrollments ++ [e]) := by
  refine ⟨fun h => ?_, fun h1 h2 => ?_, fun c h1 h2 h3 => ?_,
    fun c h1 h2 h3 h4 => ?_, fun c h1 h2 h3 h4 => ?_⟩
  · simp only [enroll_student, h]
  · cases hu : findValidStudent db sid with
    | none => exact absurd hu h1
    | some u => simp only [enroll_student, hu, h2]
  · cases hu : findValidStudent db sid with
    | none => exact absurd hu h1
    | some u => simp only [enroll_student, hu, h2, if_pos h3]
  · cases hu : findValidStudent db sid with
    | none => exact absurd hu h1
    | some u =>
      cases he : findActiveEnrollment db sid cid with
      | none => exact absurd he h4
      | some e0 =>
        simp only [enroll_student, hu, h2, if_neg (not_not_intro h3), he]
  · cases hu : findValidStudent db sid with
    | none => exact absurd hu h1
    | some u =>
      simp only [enroll_student, hu, h2, if_neg (not_not_intro h3), h4]
      exact ⟨_, _, rfl, rfl, rfl, rfl, rfl⟩

/-- Witness for C2 at concrete inputs: enrolling in the fixture draft
course fails with the status error and an unchanged state, and enrolling
in the fixture published course appends one active enrollment row. -/
theorem enroll_student_check_order_witness :
    enroll_student dbW 3 "c2" =
      (Except.error (EnrollError.invalidStatus CourseStatus.draft), dbW) ∧
    (∃ e db2, enroll_student dbW 3 "c1" = (Except.ok e, db2) ∧
      e.student_id = 3 ∧ e.course_id = "c1" ∧ e.is_active = true ∧
      db2.enrollments = dbW.enrollments ++ [e]) :=
  ⟨(enroll_student_check_order dbW 3 "c2").2.2.1 cDraft (by decide) (by decide)
      (by decide),
   (enroll_student_check_order dbW 3 "c1").2.2.2.2 cPub (by decide) (by decide)
      (by decide) (by decide)⟩

/-! Claim C10: enroll_student is atomic on error. -/

/-- C10: whenever enroll_student raises any of its errors, the returned
state is exactly the input state, so the enrollments table and every
course row, total_enrolled included, are as before the call; all four
validations happen before the insert and the counter update. -/
theorem enroll_student_error_atomic (db : DB) (sid : Nat) (cid : String)
    (err : EnrollError) (h : (enroll_student db sid cid).1 = Except.error err) :
    (enroll_student db sid cid).2 = db := by
  cases hs : findValidStudent db sid with
  | none => simp [enroll_student, hs]
  | some u =>
    cases hc : findActiveCourse db cid with
    | none => simp [enroll_student, hs, hc]
    | some c =>
      by_cases hst : c.status ∈ CourseStatus.get_enrollable_statuses
      · cases he : findActiveEnrollment db sid cid with
        | some e0 =>
          simp [enroll_student, hs, hc, he, if_neg (not_not_intro hst)]
        | none =>
          exfalso
          simp [enroll_student, hs, hc, he, if_neg (not_not_intro hst)] at h
      · simp [enroll_student, hs, hc, if_pos hst]

/-- Witness for C10 at a concrete input: enrolling a missing student id
raises and leaves the fixture state untouched. -/
theorem enroll_student_error_atomic_witness :
    (enroll_student dbW 99 "c1").2 = dbW :=
  enroll_student_error_atomic dbW 99 "c1" EnrollError.studentNotFound (by decide)

/-! Claim C5: the denormalized counter. -/

/-- An active course row for an id yields a row for the weaker
id-only lookup used by _update_course_enrollment_count. -/
theorem findById_of_findActiveCourse (db : DB) (cid : String) (c : Course)
    (h : findActiveCourse db cid = some c) :
    ∃ c2, db.courses.find? (fun x => decide (x.id = cid)) = some c2 := by
  have hpred := List.find?_some (p := isActiveCourseRow cid) h
  have hmem := List.mem_of_find?_eq_some (p := isActiveCourseRow cid) h
  simp only [isActiveCourseRow, decide_eq_true_eq] at hpred
  have hsome : (db.courses.find? (fun x => decide (x.id = cid))).isSome := by
    apply List.find?_isSome.mpr
    exact ⟨c, hmem, by simp [hpred.1]⟩
  exact Option.isSome_iff_exists.mp hsome

/-- After the counter recomputation the stored row carries exactly the
active-enrollment count of the state it was computed from. -/
theorem storedCount_update_course_enrollment_count (db : DB) (cid : String)
    (c : Course) (hc : db.courses.find? (fun x => decide (x.id = cid)) = some c) :
    storedCount (update_course_enrollment_count db cid) cid =
      some ((get_enrollment_count db cid : Int)) := by
  show ((updateFirstWhere (fun x => decide (x.id = cid))
      (fun x => { x with total_enrolled := (get_enrollment_count db cid : Int)
                         updated_at := db.now })
      db.courses).find? (fun x => decide (x.id = cid))).map Course.total_enrolled =
    some ((get_enrollment_count db cid : Int))
  rw [find?_updateFirstWhere_pres (fun x => decide (x.id = cid)) _ db.courses c hc
    (by simpa using List.find?_some hc)]
  rfl

/-- A successful enroll adds one active row for the course and leaves the
stored counter equal to the new active-row count; users are untouched. -/
theorem enroll_student_ok_counts (db : DB) (sid : Nat) (cid : String)
    (e : Enrollment) (db2 : DB)
    (h : enroll_student db sid cid = (Except.ok e, db2)) :
    activeCount db2 cid = activeCount db cid + 1 ∧
    storedCount db2 cid = some ((activeCount db2 cid : Int)) ∧
    db2.users = db.users := by
  cases hs : findValidStudent db sid with
  | none => simp [enroll_student, hs] at h
  | some u =>
    cases hc : findActiveCourse db cid with
    | none => simp [enroll_student, hs, hc] at h
    | some c =>
      by_cases hst : c.status ∈ CourseStatus.get_enrollable_statuses
      · cases he : findActiveEnrollment db sid cid with
        | some e0 =>
          simp [enroll_student, hs, hc, he, if_neg (not_not_intro hst)] at h
        | none =>
          simp only [enroll_student, hs, hc, he, if_neg (not_not_intro hst),
            Prod.mk.injEq, Except.ok.injEq] at h
          obtain ⟨he2, hdb2⟩ := h
          subst he2
          subst hdb2
          obtain ⟨c2, hc2⟩ := findById_of_findActiveCourse db cid c hc
          refine ⟨?_, ?_, rfl⟩
          · show get_enrollment_count _ cid = get_enrollment_count db cid + 1
            simp [get_enrollment_count, update_course_enrollment_count,
              List.filter_append, isActiveCourseEnrollmentRow]
          · exact storedCount_update_course_enrollment_count _ cid c2 hc2
      · simp [enroll_student, hs, hc, if_pos hst] at h

/-- A successful unenroll removes one active row for the course and, when
the course row exists, leaves the stored counter equal to the new
active-row count; users are untouched. -/
theorem unenroll_student_ok_counts (db : DB) (sid : Nat) (cid : String)
    (b : Bool) (db2 : DB)
    (hfind : (db.courses.find? fun x => decide (x.id = cid)) ≠ none)
    (h : unenroll_student db sid cid = (Except.ok b, db2)) :
    activeCount db2 cid + 1 = activeCount db cid ∧
    storedCount db2 cid = some ((activeCount db2 cid : Int)) ∧
    db2.users = db.users := by
  cases he : findActiveEnrollment db sid cid with
  | none => simp [unenroll_student, he] at h
  | some e0 =>
    simp only [unenroll_student, he, Prod.mk.injEq, Except.ok.injEq] at h
    obtain ⟨_, hdb2⟩ := h
    subst hdb2
    obtain ⟨c2, hc2⟩ := Option.ne_none_iff_exists'.mp hfind
    refine ⟨?_, ?_, rfl⟩
    · show get_enrollment_count _ cid + 1 = get_enrollment_count db cid
      exact filter_length_updateFirstWhere_succ
        (isActiveEnrollmentRow sid cid) (isActiveCourseEnrollmentRow cid)
        (fun x => { x with is_active := false }) db.enrollments e0 he
        (fun x hx => by
          simp only [isActiveEnrollmentRow, decide_eq_true_eq] at hx
          simp [isActiveCourseEnrollmentRow, hx.2.1, hx.2.2])
        (fun x => by simp [isActiveCourseEnrollmentRow])
    · exact storedCount_update_course_enrollment_count _ cid c2 hc2

/-- The stored counter determines that the id-only course lookup
succeeds. -/
theorem findById_of_storedCount (db : DB) (cid : String) (v : Int)
    (h : storedCount db cid = some v) :
    (db.courses.find? fun x => decide (x.id = cid)) ≠ none := by
  unfold storedCount at h
  intro hnone
  rw [hnone] at h
  cases h

/-- Along any successful run, the stored counter tracks the active-row
count, and the active-row count moves by exactly the number of enrolls
minus the number of unenrolls. -/
theorem runEnrollOps_invariant (cid : String) (ops : List EnrollOp) :
    ∀ db db2, storedCount db cid = some ((activeCount db cid : Int)) →
      runEnrollOps db cid ops = some db2 →
      storedCount db2 cid = some ((activeCount db2 cid : Int)) ∧
      (activeCount db2 cid : Int) =
        (activeCount db cid : Int) + countEnrolls ops - countUnenrolls ops := by
  induction ops with
  | nil =>
    intro db db2 hstored hrun
    have hdb : db = db2 := by
      simpa [runEnrollOps] using hrun
    subst hdb
    simpa [countEnrolls, countUnenrolls] using hstored
  | cons op rest ih =>
    intro db db2 hstored hrun
    cases op with
    | enroll sid =>
      simp only [runEnrollOps] at hrun
      cases hcall : enroll_student db sid cid with
      | mk res db1 =>
        rw [hcall] at hrun
        cases res with
        | error err => cases hrun
        | ok e =>
          obtain ⟨ha, hb, _⟩ := enroll_student_ok_counts db sid cid e db1 hcall
          obtain ⟨h1, h2⟩ := ih db1 db2 hb hrun
          refine ⟨h1, ?_⟩
          rw [h2, ha]
          simp only [countEnrolls, countUnenrolls]
          push_cast
          ring
    | unenroll sid =>
      simp only [runEnrollOps] at hrun
      cases hcall : unenroll_student db sid cid with
      | mk res db1 =>
        rw [hcall] at hrun
        cases res with
        | error err => cases hrun
        | ok b =>
          have hfind := findById_of_storedCount db cid _ hstored
          obtain ⟨ha, hb, _⟩ := unenroll_student_ok_counts db sid cid b db1 hfind hcall
          obtain ⟨h1, h2⟩ := ih db1 db2 hb hrun
          refine ⟨h1, ?_⟩
          rw [h2]
          simp only [countEnrolls, countUnenrolls]
          omega

/-- C5: for a course starting with no active enrollments and a zero
stored counter, after any successful sequence of N enrolls and M
unenrolls the stored total_enrolled equals N - M and is never negative;
moreover every single successful enroll, and every successful unenroll
on an existing course row, leaves the stored counter equal to the number
of active enrollment rows of the course. -/
theorem total_enrolled_tracks_active_rows (cid : String) :
    (∀ ops db db2, activeCount db cid = 0 → storedCount db cid = some 0 →
      runEnrollOps db cid ops = some db2 →
      countUnenrolls ops ≤ countEnrolls ops ∧
      activeCount db2 cid = countEnrolls ops - countUnenrolls ops ∧
      storedCount db2 cid =
        some ((countEnrolls ops : Int) - (countUnenrolls ops : Int))) ∧
    (∀ db sid e db2, enroll_student db sid cid = (Except.ok e, db2) →
      storedCount db2 cid = some ((activeCount db2 cid : Int))) ∧
    (∀ db sid b db2, (db.courses.find? fun x => decide (x.id = cid)) ≠ none →
      unenroll_student db sid cid = (Except.ok b, db2) →
      storedCount db2 cid = some ((activeCount db2 cid : Int))) := by
  refine ⟨fun ops db db2 h0 hs hrun => ?_,
    fun db sid e db2 h => (enroll_student_ok_counts db sid cid e db2 h).2.1,
    fun db sid b db2 hfind h => (unenroll_student_ok_counts db sid cid b db2 hfind h).2.1⟩
  have hs0 : storedCount db cid = some ((activeCount db cid : Int)) := by
    rw [h0, hs]
    rfl
  obtain ⟨h1, h2⟩ := runEnrollOps_invariant cid ops db db2 hs0 hrun
  rw [h0] at h2
  have hle : countUnenrolls ops ≤ countEnrolls ops := by omega
  have hval : activeCount db2 cid = countEnrolls ops - countUnenrolls ops := by omega
  refine ⟨hle, hval, ?_⟩
  rw [h1, hval]
  congr 1
  omega

/-- Witness for C5 at a concrete input: running enroll 3, enroll 4,
unenroll 3 on the fixture published course gives a stored counter of
2 - 1. -/
theorem total_enrolled_tracks_active_rows_witness :
    countUnenrolls opsW ≤ countEnrolls opsW ∧
    activeCount dbWOps "c1" = countEnrolls opsW - countUnenrolls opsW ∧
    storedCount dbWOps "c1" =
      some ((countEnrolls opsW : Int) - (countUnenrolls opsW : Int)) :=
  (total_enrolled_tracks_active_rows "c1").1 opsW dbW dbWOps
    (by decide) (by decide) (by decide)

/-! Claim C6: at most one active privilege row per pair. -/

/-- Inversion of a successful privilege assignment. -/
theorem assign_privilege_ok_inv (db : DB) (iid : Nat) (n : String)
    (d : Option String) (aid : Nat) (p : Privilege) (db2 : DB)
    (h : assign_privilege_to_instructor db iid n d aid = (Except.ok p, db2)) :
    (PrivilegeName.ofString? n).isSome = true ∧
    findActivePrivilege db iid n = none ∧
    p.instructor_id = iid ∧ p.privilege_name = n ∧ p.is_active = true ∧
    db2.privileges = db.privileges ++ [p] ∧ db2.users = db.users := by
  cases hn : PrivilegeName.ofString? n with
  | none => simp [assign_privilege_to_instructor, hn] at h
  | some pn =>
    cases hi : findValidInstructor db iid with
    | none => simp [assign_privilege_to_instructor, hn, hi] at h
    | some i =>
      cases ha : findValidAdmin db aid with
      | none => simp [assign_privilege_to_instructor, hn, hi, ha] at h
      | some a =>
        cases hp : findActivePrivilege db iid n with
        | some p0 =>
          simp [assign_privilege_to_instructor, hn, hi, ha, hp] at h
        | none =>
          simp only [assign_privilege_to_instructor, hn, hi, ha, hp,
            Option.isNone_some, Bool.false_eq_true, if_false,
            Prod.mk.injEq, Except.ok.injEq] at h
          obtain ⟨hp2, hdb2⟩ := h
          subst hp2
          subst hdb2
          exact ⟨rfl, rfl, rfl, rfl, rfl, rfl, rfl⟩

/-- Inversion of a successful privilege revocation. -/
theorem revoke_privilege_ok_inv (db : DB) (iid : Nat) (n : String)
    (aid : Nat) (b : Bool) (db2 : DB)
    (h : revoke_privilege_from_instructor db iid n aid = (Except.ok b, db2)) :
    (PrivilegeName.ofString? n).isSome = true ∧
    findActivePrivilege db iid n ≠ none ∧
    findValidAdmin db aid ≠ none ∧
    db2.privileges = updateFirstWhere (isActivePrivilegeRow iid n)
      (fun p => { p with is_active := false }) db.privileges ∧
    db2.users = db.users := by
  cases hn : PrivilegeName.ofString? n with
  | none => simp [revoke_privilege_from_instructor, hn] at h
  | some pn =>
    cases ha : findValidAdmin db aid with
    | none => simp [revoke_privilege_from_instructor, hn, ha] at h
    | some a =>
      cases hp : findActivePrivilege db iid n with
      | none => simp [revoke_privilege_from_instructor, hn, ha, hp] at h
      | some p0 =>
        simp only [revoke_privilege_from_instructor, hn, ha, hp,
          Option.isNone_some, Bool.false_eq_true, if_false,
          Prod.mk.injEq, Except.ok.injEq] at h
        obtain ⟨_, hdb2⟩ := h
        subst hdb2
        exact ⟨rfl, by simp, by simp, rfl, rfl⟩

/-- A successful assignment preserves pairwise uniqueness of active
privilege rows. -/
theorem uniqueActivePrivilege_preserved_assign (db : DB) (iid : Nat) (n : String)
    (d : Option String) (aid : Nat) (p : Privilege) (db2 : DB)
    (h : assign_privilege_to_instructor db iid n d aid = (Except.ok p, db2))
    (huniq : ∀ i2 n2, uniqueActivePrivilege db i2 n2) :
    ∀ i2 n2, uniqueActivePrivilege db2 i2 n2 := by
  obtain ⟨_, hnone, hp1, hp2, hp3, hpriv, _⟩ := assign_privilege_ok_inv db iid n d aid p db2 h
  intro i2 n2
  unfold uniqueActivePrivilege
  rw [hpriv, List.filter_append]
  by_cases hpp : isActivePrivilegeRow i2 n2 p = true
  · have hkey : i2 = iid ∧ n2 = n := by
      simp only [isActivePrivilegeRow, decide_eq_true_eq] at hpp
      rw [hp1] at hpp
      rw [hp2] at hpp
      exact ⟨hpp.1.symm, hpp.2.1.symm⟩
    obtain ⟨hk1, hk2⟩ := hkey
    subst hk1
    subst hk2
    have hempty : db.privileges.filter (isActivePrivilegeRow i2 n2) = [] := by
      apply List.filter_eq_nil_iff.mpr
      exact List.find?_eq_none.mp hnone
    rw [hempty]
    simp [List.filter, hpp]
  · rw [List.filter_cons_of_neg hpp]
    simpa using huniq i2 n2

/-- A successful revocation preserves pairwise uniqueness of active
privilege rows. -/
theorem uniqueActivePrivilege_preserved_revoke (db : DB) (iid : Nat) (n : String)
    (aid : Nat) (b : Bool) (db2 : DB)
    (h : revoke_privilege_from_instructor db iid n aid = (Except.ok b, db2))
    (huniq : ∀ i2 n2, uniqueActivePrivilege db i2 n2) :
    ∀ i2 n2, uniqueActivePrivilege db2 i2 n2 := by
  obtain ⟨_, _, _, hpriv, _⟩ := revoke_privilege_ok_inv db iid n aid b db2 h
  intro i2 n2
  unfold uniqueActivePrivilege
  rw [hpriv]
  calc ((updateFirstWhere (isActivePrivilegeRow iid n)
          (fun p => { p with is_active := false }) db.privileges).filter
            (isActivePrivilegeRow i2 n2)).length
      ≤ (db.privileges.filter (isActivePrivilegeRow i2 n2)).length :=
        filter_length_updateFirstWhere_le _ _ _ _
          (fun x hx => absurd hx (by simp [isActivePrivilegeRow]))
    _ ≤ 1 := huniq i2 n2

/-- C6: every privilege-store state reachable through the service keeps
at most one active privilege row per (instructor, name) pair; assigning
a pair that already has an active row fails with the already-assigned
error and leaves the state unchanged; and once the pair is revoked, the
same assignment succeeds again. -/
theorem privilege_pair_uniqueness :
    (∀ db, PrivReachable db → ∀ iid n, uniqueActivePrivilege db iid n) ∧
    (∀ db iid n d aid, (PrivilegeName.ofString? n).isSome = true →
      findValidInstructor db iid ≠ none → findValidAdmin db aid ≠ none →
      findActivePrivilege db iid n ≠ none →
      assign_privilege_to_instructor db iid n d aid =
        (Except.error (PrivError.alreadyAssigned n), db)) ∧
    (∀ db iid n aid b db2 d, uniqueActivePrivilege db iid n →
      findValidInstructor db iid ≠ none →
      revoke_privilege_from_instructor db iid n aid = (Except.ok b, db2) →
      ∃ p2 db3, assign_privilege_to_instructor db2 iid n d aid =
        (Except.ok p2, db3)) := by
  refine ⟨?_, ?_, ?_⟩
  · intro db hreach
    induction hreach with
    | empty db hdb =>
      intro iid n
      unfold uniqueActivePrivilege
      rw [hdb]
      simp
    | frame db db2 hr hpriv ih =>
      intro iid n
      unfold uniqueActivePrivilege
      rw [hpriv]
      exact ih iid n
    | assign db iid n d aid p db2 hr hok ih =>
      exact uniqueActivePrivilege_preserved_assign db iid n d aid p db2 hok ih
    | revoke db iid n aid b db2 hr hok ih =>
      exact uniqueActivePrivilege_preserved_revoke db iid n aid b db2 hok ih
  · intro db iid n d aid hv hi ha hp
    cases hn : PrivilegeName.ofString? n with
    | none =>
      rw [hn] at hv
      cases hv
    | some pn =>
      cases hi2 : findValidInstructor db iid with
      | none => exact absurd hi2 hi
      | some i =>
        cases ha2 : findValidAdmin db aid with
        | none => exact absurd ha2 ha
        | some a =>
          cases hp2 : findActivePrivilege db iid n with
          | none => exact absurd hp2 hp
          | some p0 =>
            simp only [assign_privilege_to_instructor, hn, hi2, ha2, hp2,
              Option.isNone_some, Bool.false_eq_true, if_false]
  · intro db iid n aid b db2 d huniq hi hrev
    obtain ⟨hv, _, ha, hpriv, husers⟩ :=
      revoke_privilege_ok_inv db iid n aid b db2 hrev
    have hi2 : findValidInstructor db2 iid = findValidInstructor db iid := by
      unfold findValidInstructor
      rw [husers]
    have ha2 : findValidAdmin db2 aid = findValidAdmin db aid := by
      unfold findValidAdmin
      rw [husers]
    have hnone : findActivePrivilege db2 iid n = none := by
      unfold findActivePrivilege
      rw [hpriv]
      exact find?_updateFirstWhere_of_unique _ _ _ huniq
        (fun x => by simp [isActivePrivilegeRow])
    cases hn : PrivilegeName.ofString? n with
    | none =>
      rw [hn] at hv
      cases hv
    | some pn =>
      cases hi3 : findValidInstructor db iid with
      | none => exact absurd hi3 hi
      | some i =>
        cases ha3 : findValidAdmin db aid with
        | none => exact absurd ha3 ha
        | some a =>
          simp only [assign_privilege_to_instructor, hn, hi2, ha2,
            hi3, ha3, hnone, Option.isNone_some, Bool.false_eq_true, if_false]
          exact ⟨_, _, rfl⟩

/-- Witness for C6 at concrete inputs: the empty fixture store is
reachable and unique, re-assigning the already-held create_course fails
with the already-assigned error, and after revocation the assignment
succeeds again. -/
theorem privilege_pair_uniqueness_witness :
    uniqueActivePrivilege dbW 2 "create_course" ∧
    assign_privilege_to_instructor dbWP 2 "create_course" none 1 =
      (Except.error (PrivError.alreadyAssigned "create_course"), dbWP) ∧
    (∃ p2 db3, assign_privilege_to_instructor dbWPR 2 "create_course" none 1 =
      (Except.ok p2, db3)) :=
  ⟨privilege_pair_uniqueness.1 dbW (PrivReachable.empty dbW rfl) 2 "create_course",
   privilege_pair_uniqueness.2.1 dbWP 2 "create_course" none 1
     (by decide) (by decide) (by decide) (by decide),
   privilege_pair_uniqueness.2.2 dbWP 2 "create_course" 1 true dbWPR none
     (show (dbWP.privileges.filter (isActivePrivilegeRow 2 "create_course")).length ≤ 1
       by decide)
     (by decide) (by decide)⟩

/-! Claim C8: duplicate enrollment conflict and re-enrollment. -/

/-- Inversion of a successful enrollment. -/
theorem enroll_student_ok_inv (db : DB) (sid : Nat) (cid : String)
    (e : Enrollment) (db2 : DB)
    (h : enroll_student db sid cid = (Except.ok e, db2)) :
    ∃ u c, findValidStudent db sid = some u ∧ findActiveCourse db cid = some c ∧
      c.status ∈ CourseStatus.get_enrollable_statuses ∧
      findActiveEnrollment db sid cid = none ∧
      e.student_id = sid ∧ e.course_id = cid ∧ e.is_active = true ∧
      db2.users = db.users ∧
      db2.enrollments = db.enrollments ++ [e] ∧
      ∃ v, db2.courses = updateFirstWhere (fun x => decide (x.id = cid))
        (fun x => { x with total_enrolled := v, updated_at := db.now })
        db.courses := by
  cases hs : findValidStudent db sid with
  | none => simp [enroll_student, hs] at h
  | some u =>
    cases hc : findActiveCourse db cid with
    | none => simp [enroll_student, hs, hc] at h
    | some c =>
      by_cases hst : c.status ∈ CourseStatus.get_enrollable_statuses
      · cases he : findActiveEnrollment db sid cid with
        | some e0 =>
          simp [enroll_student, hs, hc, he, if_neg (not_not_intro hst)] at h
        | none =>
          simp only [enroll_student, hs, hc, he, if_neg (not_not_intro hst),
            Prod.mk.injEq, Except.ok.injEq] at h
          obtain ⟨he2, hdb2⟩ := h
          subst he2
          subst hdb2
          exact ⟨u, c, rfl, rfl, hst, rfl, rfl, rfl, rfl, rfl, rfl, _, rfl⟩
      · simp [enroll_student, hs, hc, if_pos hst] at h

/-- Inversion of a successful unenrollment. -/
theorem unenroll_student_ok_inv (db : DB) (sid : Nat) (cid : String)
    (b : Bool) (db2 : DB)
    (h : unenroll_student db sid cid = (Except.ok b, db2)) :
    findActiveEnrollment db sid cid ≠ none ∧
    db2.users = db.users ∧
    db2.enrollments = updateFirstWhere (isActiveEnrollmentRow sid cid)
      (fun x => { x with is_active := false }) db.enrollments ∧
    ∃ v, db2.courses = updateFirstWhere (fun x => decide (x.id = cid))
      (fun x => { x with total_enrolled := v, updated_at := db.now })
      db.courses := by
  cases he : findActiveEnrollment db sid cid with
  | none => simp [unenroll_student, he] at h
  | some e0 =>
    simp only [unenroll_student, he, Prod.mk.injEq, Except.ok.injEq] at h
    obtain ⟨_, hdb2⟩ := h
    subst hdb2
    exact ⟨by simp, rfl, rfl, _, rfl⟩

/-- The counter update keeps an active course row findable with an
unchanged id, active flag and status. -/
theorem findActiveCourse_updateById (l : List Course) (cid : String)
    (v now2 : Int) (c : Course)
    (h : l.find? (isActiveCourseRow cid) = some c) :
    ∃ c2, (updateFirstWhere (fun x => decide (x.id = cid))
        (fun x => { x with total_enrolled := v, updated_at := now2 })
        l).find? (isActiveCourseRow cid) = some c2 ∧
      c2.status = c.status ∧ c2.id = c.id ∧ c2.is_active = c.is_active := by
  induction l with
  | nil => cases h
  | cons x rest ih =>
    by_cases hid : (decide (x.id = cid) : Bool) = true
    · simp only [updateFirstWhere, if_pos hid]
      by_cases hact : isActiveCourseRow cid x = true
      · rw [List.find?_cons_of_pos _ hact] at h
        injection h with h
        subst h
        have hact2 : isActiveCourseRow cid
            ({ x with total_enrolled := v, updated_at := now2 }) = true := by
          simpa [isActiveCourseRow] using hact
        rw [List.find?_cons_of_pos _ hact2]
        exact ⟨_, rfl, rfl, rfl, rfl⟩
      · rw [List.find?_cons_of_neg _ hact] at h
        have hact2 : ¬ isActiveCourseRow cid
            ({ x with total_enrolled := v, updated_at := now2 }) = true := by
          simpa [isActiveCourseRow] using hact
        rw [List.find?_cons_of_neg _ hact2]
        exact ⟨c, h, rfl, rfl, rfl⟩
    · have hact : ¬ isActiveCourseRow cid x = true := by
        simp only [decide_eq_true_eq] at hid
        simp [isActiveCourseRow, hid]
      rw [List.find?_cons_of_neg _ hact] at h
      simp only [updateFirstWhere, if_neg hid]
      rw [List.find?_cons_of_neg _ hact]
      exact ih h

/-- When every check passes, enroll_student succeeds with an active row. -/
theorem enroll_student_ok_of_checks (db : DB) (sid : Nat) (cid : String)
    (u : User) (c : Course) (hu : findValidStudent db sid = some u)
    (hc : findActiveCourse db cid = some c)
    (hst : c.status ∈ CourseStatus.get_enrollable_statuses)
    (he : findActiveEnrollment db sid cid = none) :
    ∃ e db2, enroll_student db sid cid = (Except.ok e, db2) ∧
      e.is_active = true := by
  simp only [enroll_student, hu, hc, if_neg (not_not_intro hst), he]
  exact ⟨_, _, rfl, rfl⟩

/-- C8: enrolling the same pair again while the first enrollment is
active fails with the duplicate-enrollment error and changes nothing,
and once the pair is unenrolled (the state holding at most one active
row for it) the same enrollment succeeds again with a fresh active row. -/
theorem enroll_conflict_and_reenroll (db : DB) (sid : Nat) (cid : String) :
    (∀ e db1, enroll_student db sid cid = (Except.ok e, db1) →
      enroll_student db1 sid cid = (Except.error EnrollError.alreadyEnrolled, db1)) ∧
    (∀ c b db1, uniqueActiveEnrollment db sid cid →
      findValidStudent db sid ≠ none →
      findActiveCourse db cid = some c →
      c.status ∈ CourseStatus.get_enrollable_statuses →
      unenroll_student db sid cid = (Except.ok b, db1) →
      ∃ e db2, enroll_student db1 sid cid = (Except.ok e, db2) ∧
        e.is_active = true) := by
  constructor
  · intro e db1 h
    obtain ⟨u, c, hu, hc, hst, he, hes, hec, hea, husers, henr, v, hcourses⟩ :=
      enroll_student_ok_inv db sid cid e db1 h
    have hu1 : findValidStudent db1 sid = some u := by
      unfold findValidStudent
      rw [husers]
      exact hu
    obtain ⟨c2, hc2, hst2, _, _⟩ :=
      findActiveCourse_updateById db.courses cid v db.now c hc
    have hcourse1 : findActiveCourse db1 cid = some c2 := by
      unfold findActiveCourse
      rw [hcourses]
      exact hc2
    have he1 : findActiveEnrollment db1 sid cid = some e := by
      unfold findActiveEnrollment
      rw [henr, List.find?_append,
        show db.enrollments.find? (isActiveEnrollmentRow sid cid) = none from he]
      simp [isActiveEnrollmentRow, hes, hec, hea]
    have hst3 : c2.status ∈ CourseStatus.get_enrollable_statuses := by
      rw [hst2]
      exact hst
    simp only [enroll_student, hu1, hcourse1, if_neg (not_not_intro hst3), he1]
  · intro c b db1 huniq hstud hc hst hun
    obtain ⟨_, husers, henr, v, hcourses⟩ :=
      unenroll_student_ok_inv db sid cid b db1 hun
    have hstud1 : findValidStudent db1 sid ≠ none := by
      unfold findValidStudent
      rw [husers]
      exact hstud
    obtain ⟨u, hu⟩ := Option.ne_none_iff_exists'.mp hstud1
    obtain ⟨c2, hc2, hst2, _, _⟩ :=
      findActiveCourse_updateById db.courses cid v db.now c hc
    have hcourse1 : findActiveCourse db1 cid = some c2 := by
      unfold findActiveCourse
      rw [hcourses]
      exact hc2
    have hnone : findActiveEnrollment db1 sid cid = none := by
      unfold findActiveEnrollment
      rw [henr]
      exact find?_updateFirstWhere_of_unique _ _ _ huniq
        (fun x => by simp [isActiveEnrollmentRow])
    have hst3 : c2.status ∈ CourseStatus.get_enrollable_statuses := by
      rw [hst2]
      exact hst
    exact enroll_student_ok_of_checks db1 sid cid u c2 hu hcourse1 hst3 hnone

/-- Witness for C8 at concrete inputs: enrolling student 3 in c1 twice
fails the second time with the duplicate error and leaves the state
unchanged, and after unenrolling, enrolling succeeds again. -/
theorem enroll_conflict_and_reenroll_witness :
    enroll_student dbWE 3 "c1" = (Except.error EnrollError.alreadyEnrolled, dbWE) ∧
    (∃ e db2, enroll_student dbWU 3 "c1" = (Except.ok e, db2) ∧
      e.is_active = true) :=
  ⟨(enroll_conflict_and_reenroll dbW 3 "c1").1 eW dbWE (by decide),
   (enroll_conflict_and_reenroll dbWE 3 "c1").2 cPubE true dbWU
     (show (dbWE.enrollments.filter (isActiveEnrollmentRow 3 "c1")).length ≤ 1
       by decide)
     (by decide) (by decide) (by decide) (by decide)⟩

/-! Claim C9: bulk operations and row-level failures. -/

/-- Counterexample to C9 as stated: on the list [bogus_privilege,
create_course] the first element fails with an invalid-name error whose
message does not contain already assigned, and the whole batch aborts
with that error and no assignment at all, even though assigning
create_course alone would succeed; so not every row-level failure is
swallowed by bulk privilege assignment. -/
theorem bulk_assign_aborts_counterexample :
    bulk_assign_privileges dbW 2 ["bogus_privilege", "create_course"] 1 =
      (Except.error (PrivError.invalidName "bogus_privilege"), dbW) ∧
    (∃ p db2, assign_privilege_to_instructor dbW 2 "create_course" none 1 =
      (Except.ok p, db2)) := by
  constructor
  · decide
  · exact ⟨_, _, rfl⟩

/-- A concatenation contains every run its right part contains. -/
theorem charsInfix_append_right (pat s t : List Char)
    (h : charsInfix pat t = true) : charsInfix pat (s ++ t) = true := by
  induction s with
  | nil => simpa using h
  | cons c rest ih =>
    simp only [List.cons_append, charsInfix, Bool.or_eq_true]
    exact Or.inr ih

/-- The message of an already-assigned error always contains the
substring the bulk handler tests for. -/
theorem alreadyAssigned_message_contains (n : String) :
    strContainsSub (PrivError.alreadyAssigned n).message "already assigned" = true := by
  unfold strContainsSub PrivError.message
  have hsplit : ("Privilege " ++ n ++ " already assigned to this instructor").toList
      = ("Privilege " ++ n).toList ++ " already assigned to this instructor".toList := by
    simp [String.toList]
  rw [hsplit]
  apply charsInfix_append_right
  decide

/-- C9 amended: bulk enrollment swallows every row-level failure and
continues with the remaining ids, collecting the successes in order;
bulk privilege assignment swallows exactly the failures whose message
contains already assigned and continues, while any other row-level
failure is re-raised and aborts the rest of the batch, keeping the state
the failed call left. -/
theorem bulk_partial_failure_policy :
    (∀ db sid rest cid err db0, enroll_student db sid cid = (Except.error err, db0) →
      bulk_enroll_students db (sid :: rest) cid = bulk_enroll_students db0 rest cid) ∧
    (∀ db sid rest cid e db1, enroll_student db sid cid = (Except.ok e, db1) →
      bulk_enroll_students db (sid :: rest) cid =
        (e :: (bulk_enroll_students db1 rest cid).1,
         (bulk_enroll_students db1 rest cid).2)) ∧
    (∀ db iid n rest aid db0,
      assign_privilege_to_instructor db iid n none aid =
        (Except.error (PrivError.alreadyAssigned n), db0) →
      bulk_assign_privileges db iid (n :: rest) aid =
        bulk_assign_privileges db0 iid rest aid) ∧
    (∀ db iid n rest aid err db0,
      assign_privilege_to_instructor db iid n none aid = (Except.error err, db0) →
      strContainsSub err.message "already assigned" = false →
      bulk_assign_privileges db iid (n :: rest) aid = (Except.error err, db0)) := by
  refine ⟨fun db sid rest cid err db0 h => ?_,
    fun db sid rest cid e db1 h => ?_,
    fun db iid n rest aid db0 h => ?_,
    fun db iid n rest aid err db0 h h2 => ?_⟩
  · simp only [bulk_enroll_students, h]
  · simp only [bulk_enroll_students, h]
  · simp only [bulk_assign_privileges, h,
      alreadyAssigned_message_contains n, if_true]
  · simp only [bulk_assign_privileges, h]
    rw [if_neg]
    simp [h2]

/-- Witness for the amended C9 at concrete inputs: a failing enroll of a
non-student id is skipped and the batch continues with the rest, and an
invalid privilege name aborts the privilege batch with its own error. -/
theorem bulk_partial_failure_policy_witness :
    bulk_enroll_students dbW [2, 3] "c1" = bulk_enroll_students dbW [3] "c1" ∧
    bulk_assign_privileges dbW 2 ["bogus_privilege", "create_course"] 1 =
      (Except.error (PrivError.invalidName "bogus_privilege"), dbW) :=
  ⟨bulk_partial_failure_policy.1 dbW 2 [3] "c1" EnrollError.studentNotFound dbW
     (by decide),
   bulk_partial_failure_policy.2.2.2 dbW 2 "bogus_privilege" ["create_course"] 1
     (PrivError.invalidName "bogus_privilege") dbW (by decide) (by decide)⟩

end ELearning
